import Mathlib

/-!
Verification of the navigation type contracts of `src/src/types.tsx`.

The repository's one source file declares the shapes of a navigation layer:
`NavigationState`, `Route`, `InitialState`, `Router`, `NavigationAction`,
`NavigationHelpers` and the per-screen metadata. No router implementation is
part of the repository, only the `Router` contract, so where a property talks
about the states a conforming router produces, the conforming router is
modelled from the spec's invariant sentence (those definitions say so in
their doc comments).

TypeScript is embedded as follows: `number` becomes `Int`, `x?: T` becomes
`Option`, `null` becomes `Option.none`, a union becomes a `Sum` or a small
inductive, an `object` payload becomes an association list of strings, and a
field declared `key?: undefined` (present in the type but only ever carrying
`undefined`) becomes `Option Empty`.
-/

namespace RN

/-- Params payload of a route (TypeScript `object`), modelled as an
association list of string keys and string values. -/
abbrev Params := List (String × String)

/-- `Route` from src/src/types.tsx: a unique key, a user-provided name, and
an optional params payload (`params?: object | void`). -/
structure Route where
  key : String
  name : String
  params : Option Params
deriving DecidableEq, Repr

/-- `NavigationState` from src/src/types.tsx: a tree node with a unique key,
the index of the currently focused route, the list of valid route names, and
the list of rendered routes, each a `Route` possibly carrying a nested child
state (`routes: Array<Route & { state?: NavigationState }>`). The TypeScript
`number` field `index` is embedded as `Int`. -/
inductive NavigationState : Type where
  | mk (key : String) (index : Int) (routeNames : List String)
       (routes : List (Route × Option NavigationState)) : NavigationState

/-- The `key` field of a `NavigationState`. -/
def NavigationState.key : NavigationState → String
  | .mk k _ _ _ => k

/-- The `index` field of a `NavigationState`. -/
def NavigationState.index : NavigationState → Int
  | .mk _ i _ _ => i

/-- The `routeNames` field of a `NavigationState`. -/
def NavigationState.routeNames : NavigationState → List String
  | .mk _ _ rn _ => rn

/-- The `routes` field of a `NavigationState`. -/
def NavigationState.routes : NavigationState → List (Route × Option NavigationState)
  | .mk _ _ _ rs => rs

/-- `InitialState` from src/src/types.tsx:
`Omit<Omit<NavigationState, 'routeNames'>, 'key'> &
 { key?: undefined; routeNames?: undefined; state?: InitialState }`.
The fields `key` and `routeNames` are declared with value type `undefined`,
so the only value they can hold is the absent one: `Option Empty`. The
`routes` field is the one inherited from `NavigationState` (children are full
`NavigationState` values), and on top of that sits an optional recursive
`state` field. -/
inductive InitialState : Type where
  | mk (key : Option Empty) (routeNames : Option Empty) (index : Int)
       (routes : List (Route × Option NavigationState))
       (state : Option InitialState) : InitialState

/-- The `key` field of an `InitialState` (type `undefined` in the source). -/
def InitialState.key : InitialState → Option Empty
  | .mk k _ _ _ _ => k

/-- The `routeNames` field of an `InitialState` (type `undefined` in the source). -/
def InitialState.routeNames : InitialState → Option Empty
  | .mk _ rn _ _ _ => rn

/-- `NavigationAction` from src/src/types.tsx: a tagged record with a `type`
discriminator, extensible per router implementation. -/
structure NavigationAction where
  type : String
deriving DecidableEq, Repr

/-- `Options` from src/src/types.tsx: an optional title plus arbitrary extra
keys (`[key: string]: any`, values embedded as strings). -/
structure Options where
  title : Option String
  extra : Params
deriving DecidableEq, Repr

/-- The component-or-children alternative of `ScreenProps`. React render
artifacts are opaque to this model; only which alternative was chosen is
kept. -/
inductive ScreenContent : Type where
  | component : ScreenContent
  | children : ScreenContent
deriving DecidableEq, Repr

/-- `ScreenProps` from src/src/types.tsx: route name, navigator options,
initial params, and a component or a render callback. -/
structure ScreenProps where
  name : String
  options : Option Options
  initialParams : Option Params
  content : ScreenContent
deriving DecidableEq, Repr

/-- The argument of `Router.getInitialState`: a screens map, an optional
partial state (`NavigationState | InitialState`), and an optional initial
route name. -/
structure GetInitialStateOptions where
  screens : List (String × ScreenProps)
  partialState : Option (Sum NavigationState InitialState)
  initialRouteName : Option String

/-- `ActionCreators` from src/src/types.tsx: named functions producing
actions; the TypeScript `(...args: any)` argument list is embedded as a list
of params payloads. -/
def ActionCreators (Action : Type) := List (String × (List Params → Action))

/-- `Router` from src/src/types.tsx: initialize a full state from a partial
one, step the state by an action (returning `null`, i.e. `none`, when the
action cannot be handled), and expose action creators. -/
structure Router (Action : Type) where
  getInitialState : GetInitialStateOptions → NavigationState
  getStateForAction : NavigationState → Action → Option NavigationState
  actionCreators : ActionCreators Action

/-- Whether the router handles the action at the state. The interface's only
signal is the result itself: handled exactly when the result is non-null. -/
def RouterHandles {Action : Type} (r : Router Action)
    (s : NavigationState) (a : Action) : Prop :=
  (r.getStateForAction s a).isSome = true

/-- Node-level invariant: the focused index is a valid position into the
routes list, 0 ≤ index < routes.length. -/
def nodeIndexValid (s : NavigationState) : Bool :=
  decide (0 ≤ s.index) && decide (s.index < (s.routes.length : Int))

/-- Node-level invariant: every rendered route's name appears in
`routeNames` (routeNames is a superset of the names in routes). -/
def nodeNamesValid (s : NavigationState) : Bool :=
  s.routes.all (fun r => s.routeNames.contains r.1.name)

/-- Node-level invariant: route keys are pairwise distinct within the
sibling list. -/
def nodeKeysUnique (s : NavigationState) : Bool :=
  decide (s.routes.map (fun r => r.1.key)).Nodup

/-- All three node-level invariants of the spec's data model. -/
def nodeOk (s : NavigationState) : Bool :=
  nodeIndexValid s && nodeNamesValid s && nodeKeysUnique s

mutual

/-- The node itself together with every nested child state of the tree. -/
def NavigationState.subtrees : NavigationState → List NavigationState
  | .mk k i rn rs => .mk k i rn rs :: subtreesOfRoutes rs

/-- The subtrees contributed by a list of rendered routes. -/
def subtreesOfRoutes : List (Route × Option NavigationState) → List NavigationState
  | [] => []
  | (_, none) :: rest => subtreesOfRoutes rest
  | (_, some c) :: rest => NavigationState.subtrees c ++ subtreesOfRoutes rest

end

/-- The spec's data-model invariants hold at every node of the tree. -/
def wfState (s : NavigationState) : Bool :=
  s.subtrees.all nodeOk

/-- Modelled from the spec: no router implementation is part of the
repository (only the `Router` type contract is), so a router conforming to
the spec is modelled from the spec's invariant sentence — every state it
produces, from `getInitialState` or as a non-null `getStateForAction`
result, satisfies the `NavigationState` invariants at every node. -/
structure ConformingRouter (Action : Type) extends Router Action where
  initial_wf : ∀ opts, wfState (getInitialState opts) = true
  action_wf : ∀ s a s', getStateForAction s a = some s' → wfState s' = true

/-- A concrete sample route. -/
def homeRoute : Route :=
  { key := "home-0", name := "home", params := none }

/-- A concrete sample navigation state with one route and no children. -/
def initHomeState : NavigationState :=
  .mk "root-0" 0 ["home"] [(homeRoute, none)]

/-- Empty options for `getInitialState`. -/
def sampleOpts : GetInitialStateOptions :=
  ⟨[], none, none⟩

/-- A concrete conforming router: it always initializes to the sample state
and handles no action. It shows the spec-modelled contract is inhabited. -/
def trivialRouter : ConformingRouter NavigationAction where
  getInitialState := fun _ => initHomeState
  getStateForAction := fun _ _ => none
  actionCreators := []
  initial_wf := fun _ => by
    have h : initHomeState.subtrees = [initHomeState] := by
      simp [initHomeState, NavigationState.subtrees, subtreesOfRoutes]
    rw [wfState, h]
    decide
  action_wf := fun _ _ _ h => Option.noConfusion h

/-- `ParamListBase` from src/src/types.tsx: each route name maps to
`object | void`; only which of the two it is matters to the argument
shapes. -/
inductive ParamKind : Type where
  | void : ParamKind
  | obj : ParamKind
deriving DecidableEq, Repr

/-- The argument tuple of `navigate` and `replace`, embedding the TS
conditional tuple type
`ParamList[RouteName] extends void ? [RouteName] : [RouteName, ParamList[RouteName]]`:
exactly the name when the route's params type is void, and exactly the name
with a params object otherwise. No other shape inhabits the type. -/
inductive NavArgs (pl : String → ParamKind) : Type where
  | one (name : String) (h : pl name = ParamKind.void) : NavArgs pl
  | two (name : String) (params : Params) (h : pl name ≠ ParamKind.void) : NavArgs pl

/-- The argument of `NavigationHelpers.dispatch`:
`NavigationAction | ((state: NavigationState) => NavigationState)` — either
an action or an update function receiving the current state. -/
inductive DispatchArg : Type where
  | action (a : NavigationAction) : DispatchArg
  | updater (f : NavigationState → NavigationState) : DispatchArg

/-- `NavigationHelpers` from src/src/types.tsx, over a param list: dispatch,
navigate, replace, reset (a partial state with an optional target key) and
goBack. All return `void`. -/
structure NavigationHelpers (pl : String → ParamKind) where
  dispatch : DispatchArg → Unit
  navigate : NavArgs pl → Unit
  replace : NavArgs pl → Unit
  reset : InitialState → Option String → Unit
  goBack : Unit → Unit

/-- A param list where every route's params type is void. -/
def noParams : String → ParamKind := fun _ => ParamKind.void

/-- A concrete helpers value, showing `NavigationHelpers` is inhabited. -/
def trivialHelpers : NavigationHelpers noParams where
  dispatch := fun _ => ()
  navigate := fun _ => ()
  replace := fun _ => ()
  reset := fun _ _ => ()
  goBack := fun _ => ()

/-- Every member of `subtreesOfRoutes` or `subtrees` of a well-formed tree
passes `nodeOk`. -/
theorem wfState_nodeOk {s t : NavigationState} (hw : wfState s = true)
    (ht : t ∈ s.subtrees) : nodeOk t = true := by
  rw [wfState, List.all_eq_true] at hw
  exact hw t ht

/-- A node passing `nodeOk` has a valid index. -/
theorem nodeOk_index {t : NavigationState} (h : nodeOk t = true) :
    nodeIndexValid t = true := by
  rw [nodeOk, Bool.and_eq_true, Bool.and_eq_true] at h
  exact h.1.1

/-- A node passing `nodeOk` has routeNames covering its routes. -/
theorem nodeOk_names {t : NavigationState} (h : nodeOk t = true) :
    nodeNamesValid t = true := by
  rw [nodeOk, Bool.and_eq_true, Bool.and_eq_true] at h
  exact h.1.2

/-- A node passing `nodeOk` has pairwise distinct route keys. -/
theorem nodeOk_keys {t : NavigationState} (h : nodeOk t = true) :
    nodeKeysUnique t = true := by
  rw [nodeOk, Bool.and_eq_true] at h
  exact h.2

/-- The root is among its own subtrees. -/
theorem self_mem_subtrees (s : NavigationState) : s ∈ s.subtrees := by
  cases s with
  | mk k i rn rs => rw [NavigationState.subtrees]; exact List.mem_cons_self _ _

/-- A raw `NavigationState` whose index is out of range. -/
def badIndexState : NavigationState :=
  .mk "bad-0" 1 [] []

/-- A raw `NavigationState` with a route whose name is missing from
`routeNames`. -/
def badNamesState : NavigationState :=
  .mk "bad-1" 0 [] [({ key := "a-0", name := "a", params := none }, none)]

/-- A raw `NavigationState` with two sibling routes sharing a key. -/
def badKeysState : NavigationState :=
  .mk "bad-2" 0 ["a", "b"]
    [({ key := "dup", name := "a", params := none }, none),
     ({ key := "dup", name := "b", params := none }, none)]

/-- C1: the `NavigationState` type itself does not force `0 ≤ index <
routes.length` — here is a value violating it, so the claim's universal
clause over all `NavigationState` values is false. -/
theorem C1_counterexample_raw_index :
    nodeIndexValid badIndexState = false ∧
    ¬ (∀ s : NavigationState, nodeIndexValid s = true) :=
  ⟨by decide, fun h => absurd (h badIndexState) (by decide)⟩

/-- C1 (amended): every state produced by a conforming router — the result
of `getInitialState`, or any non-null result of `getStateForAction` — has a
valid focused index, `0 ≤ index < routes.length`, at every node of the
tree. -/
theorem C1_conforming_index_valid (Action : Type) (r : ConformingRouter Action) :
    (∀ opts, ∀ t ∈ (r.getInitialState opts).subtrees, nodeIndexValid t = true) ∧
    (∀ s a s', r.getStateForAction s a = some s' →
        ∀ t ∈ s'.subtrees, nodeIndexValid t = true) := by
  constructor
  · intro opts t ht
    exact nodeOk_index (wfState_nodeOk (r.initial_wf opts) ht)
  · intro s a s' h t ht
    exact nodeOk_index (wfState_nodeOk (r.action_wf s a s' h) ht)

/-- C1 witness: the amended statement applied to the concrete conforming
router at its initial state. -/
theorem C1_conforming_index_valid_witness :
    nodeIndexValid (trivialRouter.getInitialState sampleOpts) = true :=
  (C1_conforming_index_valid NavigationAction trivialRouter).1 sampleOpts
    (trivialRouter.getInitialState sampleOpts) (self_mem_subtrees _)

/-- C2: the `NavigationState` type itself does not force the names in
`routes` to appear in `routeNames` — here is a value violating it, so the
claim's universal clause over all `NavigationState` values is false. -/
theorem C2_counterexample_raw_names :
    nodeNamesValid badNamesState = false ∧
    ¬ (∀ s : NavigationState, nodeNamesValid s = true) :=
  ⟨by decide, fun h => absurd (h badNamesState) (by decide)⟩

/-- C2 (amended): every state produced by a conforming router — from
`getInitialState` or as a non-null `getStateForAction` result — has, at
every node, every rendered route's name listed in `routeNames`. -/
theorem C2_conforming_names_valid (Action : Type) (r : ConformingRouter Action) :
    (∀ opts, ∀ t ∈ (r.getInitialState opts).subtrees, nodeNamesValid t = true) ∧
    (∀ s a s', r.getStateForAction s a = some s' →
        ∀ t ∈ s'.subtrees, nodeNamesValid t = true) := by
  constructor
  · intro opts t ht
    exact nodeOk_names (wfState_nodeOk (r.initial_wf opts) ht)
  · intro s a s' h t ht
    exact nodeOk_names (wfState_nodeOk (r.action_wf s a s' h) ht)

/-- C2 witness: the amended statement applied to the concrete conforming
router at its initial state. -/
theorem C2_conforming_names_valid_witness :
    nodeNamesValid (trivialRouter.getInitialState sampleOpts) = true :=
  (C2_conforming_names_valid NavigationAction trivialRouter).1 sampleOpts
    (trivialRouter.getInitialState sampleOpts) (self_mem_subtrees _)

/-- C4: the `NavigationState` type itself does not force sibling route keys
to be distinct — here is a value with a duplicated key, so the claim's
universal clause over all `NavigationState` values is false. -/
theorem C4_counterexample_raw_keys :
    nodeKeysUnique badKeysState = false ∧
    ¬ (∀ s : NavigationState, nodeKeysUnique s = true) :=
  ⟨by decide, fun h => absurd (h badKeysState) (by decide)⟩

/-- C4 (amended): in every state produced by a conforming router — from
`getInitialState` or as a non-null `getStateForAction` result — the route
keys of every sibling list are pairwise distinct. -/
theorem C4_conforming_keys_unique (Action : Type) (r : ConformingRouter Action) :
    (∀ opts, ∀ t ∈ (r.getInitialState opts).subtrees, nodeKeysUnique t = true) ∧
    (∀ s a s', r.getStateForAction s a = some s' →
        ∀ t ∈ s'.subtrees, nodeKeysUnique t = true) := by
  constructor
  · intro opts t ht
    exact nodeOk_keys (wfState_nodeOk (r.initial_wf opts) ht)
  · intro s a s' h t ht
    exact nodeOk_keys (wfState_nodeOk (r.action_wf s a s' h) ht)

/-- C4 witness: the amended statement applied to the concrete conforming
router at its initial state. -/
theorem C4_conforming_keys_unique_witness :
    nodeKeysUnique (trivialRouter.getInitialState sampleOpts) = true :=
  (C4_conforming_keys_unique NavigationAction trivialRouter).1 sampleOpts
    (trivialRouter.getInitialState sampleOpts) (self_mem_subtrees _)

/-- C3: `getStateForAction` either returns a new `NavigationState` or the
null-equivalent `none`, and it returns `none` exactly when the action is not
handled — handledness at this interface is the non-null result itself, and
no other error signal exists in the contract. -/
theorem C3_get_state_for_action_null_contract (Action : Type) (r : Router Action)
    (s : NavigationState) (a : Action) :
    ((∃ s', r.getStateForAction s a = some s') ∨ r.getStateForAction s a = none) ∧
    (r.getStateForAction s a = none ↔ ¬ RouterHandles r s a) := by
  cases h : r.getStateForAction s a with
  | none => simp [RouterHandles, h]
  | some v => simp [RouterHandles, h]

/-- C5: `getInitialState` is total and produces a full `NavigationState` —
one carrying all four fields `key`, `index`, `routeNames` and `routes` — for
every input, including inputs whose partial state is an `InitialState` and
therefore omits `key` and `routeNames`. -/
theorem C5_get_initial_state_full (Action : Type) (r : Router Action)
    (opts : GetInitialStateOptions) :
    ∃ (k : String) (i : Int) (rn : List String)
      (rs : List (Route × Option NavigationState)),
      r.getInitialState opts = NavigationState.mk k i rn rs := by
  cases h : r.getInitialState opts with
  | mk k i rn rs => exact ⟨k, i, rn, rs, rfl⟩

/-- C6: routers are pure functions — equal state and action give equal
`getStateForAction` results, and equal options give equal `getInitialState`
results; no hidden state enters the contract. -/
theorem C6_router_pure (Action : Type) (r : Router Action)
    (s₁ s₂ : NavigationState) (a₁ a₂ : Action)
    (o₁ o₂ : GetInitialStateOptions)
    (hs : s₁ = s₂) (ha : a₁ = a₂) (ho : o₁ = o₂) :
    r.getStateForAction s₁ a₁ = r.getStateForAction s₂ a₂ ∧
    r.getInitialState o₁ = r.getInitialState o₂ := by
  subst hs
  subst ha
  subst ho
  exact ⟨rfl, rfl⟩

/-- C6 witness: purity applied to the concrete router at concrete equal
inputs. -/
theorem C6_router_pure_witness :
    trivialRouter.getStateForAction initHomeState { type := "NOOP" } =
      trivialRouter.getStateForAction initHomeState { type := "NOOP" } ∧
    trivialRouter.getInitialState sampleOpts =
      trivialRouter.getInitialState sampleOpts :=
  C6_router_pure NavigationAction trivialRouter.toRouter
    initHomeState initHomeState { type := "NOOP" } { type := "NOOP" }
    sampleOpts sampleOpts rfl rfl rfl

/-- C7: `NavigationState` is a recursive tree type — every value consists of
exactly a string key, an integer focused-route index, a list of route names,
and a list of route records each optionally nesting a child
`NavigationState`. -/
theorem C7_navigation_state_tree_shape (s : NavigationState) :
    s = NavigationState.mk s.key s.index s.routeNames s.routes ∧
    s.routes.all (fun x => x.2.isNone || x.2.isSome) = true := by
  cases s with
  | mk k i rn rs =>
    refine ⟨rfl, ?_⟩
    rw [List.all_eq_true]
    intro x hx
    cases h : x.2 with
    | none => simp [h]
    | some c => simp [h]

/-- C8: an `InitialState` can never carry a `key` or a `routeNames` — both
fields have value type `undefined` in the source, so their only value is the
absent one; the router must generate them. -/
theorem C8_initial_state_forces_no_key (st : InitialState) :
    st.key = none ∧ st.routeNames = none := by
  cases st with
  | mk k rn i rs c =>
    cases k with
    | none =>
      cases rn with
      | none => exact ⟨rfl, rfl⟩
      | some e => exact e.elim
    | some e => exact e.elim

/-- C9: `dispatch` accepts an action or an update function from
`NavigationState` to `NavigationState` — both forms are in its domain, and
every dispatchable argument is exactly one of the two. -/
theorem C9_dispatch_accepts_action_or_updater (pl : String → ParamKind)
    (hel : NavigationHelpers pl) :
    (∀ a : NavigationAction, hel.dispatch (DispatchArg.action a) = ()) ∧
    (∀ f : NavigationState → NavigationState,
        hel.dispatch (DispatchArg.updater f) = ()) ∧
    (∀ d : DispatchArg, (∃ a, d = DispatchArg.action a) ∨
        (∃ f, d = DispatchArg.updater f)) := by
  refine ⟨fun a => rfl, fun f => rfl, fun d => ?_⟩
  cases d with
  | action a => exact Or.inl ⟨a, rfl⟩
  | updater f => exact Or.inr ⟨f, rfl⟩

/-- C10: the arguments of `navigate` and `replace` have exactly two shapes —
just the route name when that route's params type is void, and the name with
a params object otherwise — and both functions consume exactly that argument
type. -/
theorem C10_navigate_replace_arg_shapes (pl : String → ParamKind)
    (hel : NavigationHelpers pl) (a : NavArgs pl) :
    ((∃ (n : String) (h : pl n = ParamKind.void), a = NavArgs.one n h) ∨
     (∃ (n : String) (p : Params) (h : pl n ≠ ParamKind.void),
        a = NavArgs.two n p h)) ∧
    hel.navigate a = () ∧ hel.replace a = () := by
  refine ⟨?_, rfl, rfl⟩
  cases a with
  | one n h => exact Or.inl ⟨n, h, rfl⟩
  | two n p h => exact Or.inr ⟨n, p, h, rfl⟩

end RN
